import Mathlib

/-!
Verification of the Qwen OAuth device-flow SDK core (fapiao repository).

Shallow embedding conventions:
* Bytes are `Nat` values; where overflow/bounds matter a `< 256` hypothesis is
  carried explicitly.
* Instants (JS `Date.now()` milliseconds, ISO-8601 `expiry_date` strings) are
  modelled as `Nat` millisecond timestamps; `parseExpiry` (JS `new Date(s)`) is
  the identity on that representation.
* Network endpoints (`postForm`, the downstream `fetch`) are oracles: functions
  from the attempt/iteration index to the outcome of that call.
* Library calls outside the repository (`crypto.randomBytes`, SHA-256) are
  parameters of the embedding; the repository code around them is translated
  faithfully.
* JS exceptions are `Except`; the probed error shape `{status?, data?, message}`
  is the structure `HttpError`.
-/

/-- Error body as probed by the code (`errorData?.error`). -/
structure ErrBody where
  error : Option String
deriving DecidableEq

/-- Shape of errors thrown by `buildHttpError` and probed by `withRetry` and
`pollForToken`: an optional HTTP status, an optional parsed JSON body, and a
message string. -/
structure HttpError where
  status : Option Nat
  data : Option ErrBody
  message : String
deriving DecidableEq

/-- The `error` field of the parsed error body, i.e. JS `errorData?.error`. -/
def errField (e : HttpError) : Option String :=
  e.data.bind ErrBody.error

/-- Constant `MAX_RETRIES` from the source. -/
def MAX_RETRIES : Nat := 5

/-- Constant `RETRY_DELAY_MS` from the source. -/
def RETRY_DELAY_MS : Nat := 2000

/-- Loop body of `withRetry`. `attempt` is the 1-based attempt counter,
`remaining = retries - attempt + 1` counts the attempts still allowed, and
`last` is the `lastError` variable. Returns the outcome together with the list
of sleep durations performed and the number of invocations of `fn`. Leaving the
loop with `remaining = 0` throws `lastError` (or the generic `请求失败` error
when no attempt ever ran, i.e. `lastError === null`). -/
def withRetryLoop {α : Type} (fn : Nat → Except HttpError α) (delay : Nat) :
    Nat → Nat → Option HttpError → Except HttpError α × List Nat × Nat
  | 0, _, last =>
    (match last with
      | some e => .error e
      | none => .error ⟨none, none, "请求失败"⟩, [], 0)
  | remaining + 1, attempt, _ =>
    match fn attempt with
    | .ok v => (.ok v, [], 1)
    | .error e =>
      if e.status = some 401 ∨ e.status = some 403 ∨ e.status = some 400 then
        (.error e, [], 1)
      else
        let rest := withRetryLoop fn delay remaining (attempt + 1) (some e)
        if remaining = 0 then
          -- attempt = retries: the `attempt < retries` guard fails, no sleep
          (rest.1, rest.2.1, rest.2.2 + 1)
        else
          (rest.1, delay * attempt :: rest.2.1, rest.2.2 + 1)

/-- `withRetry(fn, retries, delay)` from the source, as a function of the
oracle `fn` (outcome of each 1-based attempt). Result: the value returned or
error thrown, the sleeps performed (`delay * attempt` before each retry), and
how many times `fn` was invoked. -/
def withRetry {α : Type} (fn : Nat → Except HttpError α) (retries delay : Nat) :
    Except HttpError α × List Nat × Nat :=
  withRetryLoop fn delay retries 1 none

/-- Standard base64 alphabet used by Node's `Buffer.toString('base64')`. -/
def stdAlphabet : List Char :=
  "ABCDEFGHIJKLMNOPQRSTUVWXYZabcdefghijklmnopqrstuvwxyz0123456789+/".toList

/-- base64url alphabet (RFC 4648 §5). -/
def urlAlphabet : List Char :=
  "ABCDEFGHIJKLMNOPQRSTUVWXYZabcdefghijklmnopqrstuvwxyz0123456789-_".toList

/-- Character of an alphabet at a 6-bit index. -/
def b64Char (alpha : List Char) (n : Nat) : Char := alpha.getD n 'A'

/-- 6-bit indices of the base64 encoding of a byte list (grouping 3 bytes into
4 sixtets, with the truncated final group for 1 or 2 leftover bytes). -/
def b64EncIndices : List Nat → List Nat
  | [] => []
  | [a] => [a / 4, a % 4 * 16]
  | [a, b] => [a / 4, a % 4 * 16 + b / 16, b % 16 * 4]
  | a :: b :: c :: rest =>
    a / 4 :: (a % 4 * 16 + b / 16) :: (b % 16 * 4 + c / 64) :: c % 64 ::
      b64EncIndices rest

/-- Number of `=` padding characters standard base64 appends. -/
def b64PadCount : List Nat → Nat
  | [] => 0
  | [_] => 2
  | [_, _] => 1
  | _ :: _ :: _ :: rest => b64PadCount rest

/-- Node `Buffer.toString('base64')`: standard alphabet with `=` padding. -/
def base64Std (bs : List Nat) : List Char :=
  (b64EncIndices bs).map (b64Char stdAlphabet) ++ List.replicate (b64PadCount bs) '='

/-- The two character substitutions `+` → `-` and `/` → `_` performed by the
source's chained `.replace` calls. -/
def jsReplaceUrlChars (c : Char) : Char :=
  if c = '+' then '-' else if c = '/' then '_' else c

/-- JS `.replace(/=+$/, '')`: strip the trailing run of `=`. -/
def stripTrailingEq (cs : List Char) : List Char :=
  (cs.reverse.dropWhile (fun c => c == '=')).reverse

/-- `base64URLEncode` from the source: standard base64, then `+`/`/`
substitution, then stripping trailing `=`. -/
def base64URLEncode (bs : List Nat) : List Char :=
  stripTrailingEq ((base64Std bs).map jsReplaceUrlChars)

/-- Direct base64url encoding without padding, following the spec's words
("base64url-encoded without padding"); compared against `base64URLEncode`. -/
def base64UrlNoPad (bs : List Nat) : List Char :=
  (b64EncIndices bs).map (b64Char urlAlphabet)

/-- `generateCodeVerifier` from the source, as a function of the 32 random
bytes produced by `crypto.randomBytes(32)`. -/
def generateCodeVerifier (randomBytes : List Nat) : List Char :=
  base64URLEncode randomBytes

/-- `generateCodeChallenge` from the source, as a function of the SHA-256
digest oracle (`crypto.createHash('sha256')` applied to the verifier's UTF-8
text, yielding a byte list). -/
def generateCodeChallenge (sha256 : String → List Nat) (verifier : String) :
    List Char :=
  base64URLEncode (sha256 verifier)

/-- `QwenTokenResponse`: successful token-endpoint payload. `expires_in` is in
seconds. -/
structure QwenTokenResponse where
  access_token : String
  refresh_token : Option String
  token_type : String
  resource_url : Option String
  expires_in : Nat
deriving DecidableEq

/-- `QwenTokenData`: the in-memory token record. `expiry_date` is the absolute
expiry instant in milliseconds (the ISO-8601 string of the source, modelled
numerically). -/
structure QwenTokenData where
  access_token : String
  refresh_token : Option String
  token_type : String
  resource_url : Option String
  expiry_date : Nat
deriving DecidableEq

/-- `QwenTokenStorage`: the persisted envelope. Mirrors the source interface
field for field — in particular it has no `token_type` field. -/
structure QwenTokenStorage where
  access_token : String
  refresh_token : Option String
  last_refresh : Nat
  resource_url : Option String
  email : String
  type : String
  expired : Nat
deriving DecidableEq

/-- `parseExpiry`: JS `new Date(expiryDate)` on the numeric instant model. -/
def parseExpiry (expiryDate : Nat) : Nat := expiryDate

/-- `isTokenExpired`: `new Date() >= parseExpiry(token.expiry_date)`, with the
current instant `now` made explicit. -/
def isTokenExpired (token : QwenTokenData) (now : Nat) : Bool :=
  decide (parseExpiry token.expiry_date ≤ now)

/-- JS string truthiness of an optional string: `undefined` and the empty
string are falsy. -/
def jsTruthyStr : Option String → Bool
  | some s => !(s == "")
  | none => false

/-- JS `o || d` on an optional string versus a default. -/
def jsOrStr (o : Option String) (d : String) : String :=
  if jsTruthyStr o then o.getD d else d

/-- JS `String.prototype.trim`: strip leading and trailing whitespace. -/
def jsTrim (s : String) : String :=
  ⟨((s.data.dropWhile Char.isWhitespace).reverse.dropWhile
      Char.isWhitespace).reverse⟩

/-- State of the token file at the configured storage path. `corrupt` stands
for any content on which `JSON.parse` (or field access) throws. -/
inductive FileState where
  | missing : FileState
  | corrupt : FileState
  | valid : QwenTokenStorage → FileState
deriving DecidableEq

/-- `saveTokenToStorage`: builds the `QwenTokenStorage` envelope (adding
`last_refresh = now` and the fixed `type: 'qwen'` tag) and writes it as the
file's entire content; the written envelope is returned. -/
def saveTokenToStorage (token : QwenTokenData) (email : String) (now : Nat) :
    QwenTokenStorage :=
  { access_token := token.access_token
    refresh_token := token.refresh_token
    last_refresh := now
    resource_url := token.resource_url
    email := email
    type := "qwen"
    expired := token.expiry_date }

/-- Result of `loadTokenFromStorage`: the returned token (`null` is `none`),
the `currentEmail` side effect, and whether the catch branch logged a
warning. -/
structure LoadResult where
  token : Option QwenTokenData
  email : Option String
  warned : Bool
deriving DecidableEq

/-- Body of the `try` block of `loadTokenFromStorage`: check existence, read
and `JSON.parse` the file (which throws on corrupt content), rebuild the token
with the hardcoded `token_type: 'Bearer'`, and record the envelope's `email`. -/
def loadTokenFromStorageTry : FileState → Except String LoadResult
  | .missing => .ok ⟨none, none, false⟩
  | .corrupt => .error "JSON parse error"
  | .valid env =>
    .ok ⟨some { access_token := env.access_token
                refresh_token := env.refresh_token
                token_type := "Bearer"
                resource_url := env.resource_url
                expiry_date := env.expired },
         some env.email, false⟩

/-- `loadTokenFromStorage`: the `try` body with its `catch` — any thrown error
is logged as a warning and degraded to `null`. -/
def loadTokenFromStorage (fs : FileState) : LoadResult :=
  match loadTokenFromStorageTry fs with
  | .ok r => r
  | .error _ => ⟨none, none, true⟩

/-- `extractError`: `error?.message` when truthy, else `String(error)`
(modelled by the fixed JS object stringification). -/
def extractError (e : HttpError) : String :=
  if e.message == "" then "[object Object]" else e.message

/-- Token record built from a success response in `pollForToken`:
`expiry_date = Date.now() + expires_in * 1000` with `now` the instant of the
successful iteration. -/
def tokenDataOfResponse (r : QwenTokenResponse) (now : Nat) : QwenTokenData :=
  { access_token := r.access_token
    refresh_token := r.refresh_token
    token_type := r.token_type
    resource_url := r.resource_url
    expiry_date := now + r.expires_in * 1000 }

/-- `pollForToken(deviceCode, codeVerifier, email, interval)`. Oracles: `resp i`
is the outcome of the token-endpoint POST of iteration `i`, and `clock i` is
`Date.now()` during iteration `i`. `fuel` bounds the unbounded `while (true)`
loop of the source: `none` means the loop was still pending after `fuel`
iterations. A terminated run yields the thrown error or the returned token
together with the envelope persisted via `saveTokenToStorage` (called with
`this.currentEmail = email.trim()`), plus the list of sleep durations. -/
def pollForToken (resp : Nat → Except HttpError QwenTokenResponse)
    (clock : Nat → Nat) (email : String) :
    Nat → Nat → Nat →
    Option (Except String (QwenTokenData × QwenTokenStorage) × List Nat)
  | _, 0, _ => none
  | interval, fuel + 1, i =>
    match resp i with
    | .ok r =>
      let tokenData := tokenDataOfResponse r (clock i)
      some (.ok (tokenData, saveTokenToStorage tokenData (jsTrim email) (clock i)), [])
    | .error e =>
      if e.status = some 400 ∧ e.data = none ∧
          "user_code".toList <:+: e.message.toList then
        some (.error ("令牌获取失败，接口返回: " ++ e.message), [])
      else if e.status = some 400 ∧ errField e = some "authorization_pending" then
        (pollForToken resp clock email interval fuel (i + 1)).map
          (fun q => (q.1, interval :: q.2))
      else if e.status = some 400 ∧ errField e = some "slow_down" then
        (pollForToken resp clock email (interval * 3 / 2) fuel (i + 1)).map
          (fun q => (q.1, interval * 3 / 2 :: q.2))
      else
        some (.error ("令牌获取失败: " ++ extractError e), [])

/-- Email field of the envelope persisted by a successful poll run. -/
def pollEnvEmail
    (q : Option (Except String (QwenTokenData × QwenTokenStorage) × List Nat)) :
    Option String :=
  match q with
  | some (.ok (_, env), _) => some env.email
  | _ => none

/-- Sleep durations of a terminated poll run. -/
def pollSleeps
    (q : Option (Except String (QwenTokenData × QwenTokenStorage) × List Nat)) :
    Option (List Nat) :=
  q.map (fun p => p.2)

/-- In-memory SDK state: `currentToken` and `currentEmail` fields. -/
structure SDKState where
  currentToken : Option QwenTokenData
  currentEmail : Option String
deriving DecidableEq

/-- Observable network events of `sendRequest`: a token-refresh call with the
refresh token it sends, or a downstream HTTP request with its `Authorization`
header value. -/
inductive ReqEvent where
  | refreshCall : String → ReqEvent
  | httpRequest : String → ReqEvent
deriving DecidableEq

/-- Whether an event is a token-refresh call. -/
def isRefreshEvent : ReqEvent → Bool
  | .refreshCall _ => true
  | .httpRequest _ => false

/-- Token record built by `refreshToken` from a success response:
`refresh_token: response.refresh_token || refreshToken` (JS `||`: an absent or
empty new refresh token keeps the old one). -/
def refreshTokenData (r : QwenTokenResponse) (oldRefreshToken : String)
    (now : Nat) : QwenTokenData :=
  { access_token := r.access_token
    refresh_token := some (jsOrStr r.refresh_token oldRefreshToken)
    token_type := r.token_type
    resource_url := r.resource_url
    expiry_date := now + r.expires_in * 1000 }

/-- `buildBaseUrl`: `https://{resource_url}/v1` with one trailing slash
stripped when `resource_url` is set and non-blank, else the fixed default. -/
def buildBaseUrl (resource : Option String) : String :=
  match resource with
  | some r =>
    if (jsTrim r).length > 0 then
      "https://" ++ (if r.endsWith "/" then r.dropRight 1 else r) ++ "/v1"
    else "https://portal.qwen.ai/v1"
  | none => "https://portal.qwen.ai/v1"

/-- Outcome of `sendRequest`: the value (outer `Except String` is the
`未找到有效的令牌` throw, inner the `withRetry` outcome), the network events in
order, the final in-memory state, and the final token file. -/
structure SendResult (α : Type) where
  result : Except String (Except HttpError α)
  events : List ReqEvent
  state : SDKState
  storage : FileState

/-- `sendRequest(options)`. Oracles: `refreshResp` is the token-endpoint
response when a refresh happens (the claim's scenario has the refresh succeed,
so its inner `withRetry` performs exactly one call), `fetch i` the outcome of
the `i`-th downstream attempt. Steps, as in the source: load on missing token;
a single expiry check, refreshing (and persisting) when expired with a truthy
`refresh_token`; then the `withRetry`-wrapped downstream call, whose
`Authorization` header reads `this.currentToken?.access_token` — constant
through the retry loop since nothing inside it mutates the token. -/
def sendRequest {α : Type} (st : SDKState) (storage : FileState) (now : Nat)
    (refreshResp : QwenTokenResponse) (fetch : Nat → Except HttpError α)
    (retries delay : Nat) : SendResult α :=
  let afterLoad : Option (QwenTokenData × SDKState) :=
    match st.currentToken with
    | some t => some (t, st)
    | none =>
      let L := loadTokenFromStorage storage
      match L.token with
      | some t => some (t, { currentToken := some t, currentEmail := L.email })
      | none => none
  match afterLoad with
  | none => ⟨.error "未找到有效的令牌，请先进行认证", [], st, storage⟩
  | some (t, st1) =>
    let doRefresh : Option (String × QwenTokenData) :=
      if isTokenExpired t now && jsTruthyStr t.refresh_token then
        match t.refresh_token with
        | some rt => some (rt, refreshTokenData refreshResp rt now)
        | none => none
      else none
    match doRefresh with
    | some (rt, t2) =>
      let env := saveTokenToStorage t2 (jsOrStr st1.currentEmail "unknown") now
      let W := withRetry fetch retries delay
      ⟨.ok W.1,
       .refreshCall rt ::
         List.replicate W.2.2 (.httpRequest ("Bearer " ++ t2.access_token)),
       { st1 with currentToken := some t2 }, .valid env⟩
    | none =>
      let W := withRetry fetch retries delay
      ⟨.ok W.1,
       List.replicate W.2.2 (.httpRequest ("Bearer " ++ t.access_token)),
       st1, storage⟩

/-- Claim C1: for every operation whose failure carries an HTTP-status marker
equal to 401, 403, or 400, `withRetry` invokes the operation exactly once (even
on the first attempt) and propagates that error verbatim without any retry or
delay. -/
theorem withRetry_fatal_no_retry {α : Type} (fn : Nat → Except HttpError α)
    (retries delay : Nat) (e : HttpError)
    (hr : 1 ≤ retries) (h1 : fn 1 = .error e)
    (hs : e.status = some 401 ∨ e.status = some 403 ∨ e.status = some 400) :
    withRetry fn retries delay = (.error e, [], 1) := by
  cases retries with
  | zero => omega
  | succ r =>
    simp only [withRetry, withRetryLoop, h1]
    rw [if_pos hs]

/-- Witness for `withRetry_fatal_no_retry` at a concrete 401 failure. -/
theorem withRetry_fatal_no_retry_witness :
    withRetry (fun _ => (.error ⟨some 401, none, "auth"⟩ : Except HttpError Nat))
        5 2000 = (.error ⟨some 401, none, "auth"⟩, [], 1) :=
  withRetry_fatal_no_retry _ 5 2000 ⟨some 401, none, "auth"⟩ (by decide) rfl
    (Or.inl rfl)

/-- Claim C2: an operation failing twice with a transient error (no HTTP-status
marker) and succeeding on the third attempt returns the success value after
exactly two sleeps of `delay * 1` and `delay * 2` (linear backoff); and when
all `MAX_RETRIES = 5` attempts fail transiently, the last observed error is
propagated (after sleeps `delay * 1 .. delay * 4`). -/
theorem withRetry_linear_backoff :
    (∀ {α : Type} (fn : Nat → Except HttpError α) (delay : Nat)
        (e1 e2 : HttpError) (v : α),
      fn 1 = .error e1 → e1.status = none →
      fn 2 = .error e2 → e2.status = none →
      fn 3 = .ok v →
      withRetry fn MAX_RETRIES delay = (.ok v, [delay * 1, delay * 2], 3))
    ∧ (∀ {α : Type} (fn : Nat → Except HttpError α) (delay : Nat)
        (err : Nat → HttpError),
      (∀ i, 1 ≤ i → i ≤ MAX_RETRIES → fn i = .error (err i)) →
      (∀ i, (err i).status = none) →
      withRetry fn MAX_RETRIES delay =
        (.error (err MAX_RETRIES),
         [delay * 1, delay * 2, delay * 3, delay * 4], MAX_RETRIES)) := by
  constructor
  · intro α fn delay e1 e2 v h1 hs1 h2 hs2 h3
    simp [withRetry, MAX_RETRIES, withRetryLoop, h1, h2, h3, hs1, hs2]
  · intro α fn delay err h hs
    have h1 := h 1 (by decide) (by decide)
    have h2 := h 2 (by decide) (by decide)
    have h3 := h 3 (by decide) (by decide)
    have h4 := h 4 (by decide) (by decide)
    have h5 := h 5 (by decide) (by decide)
    simp [withRetry, MAX_RETRIES, withRetryLoop, h1, h2, h3, h4, h5,
      hs 1, hs 2, hs 3, hs 4, hs 5]

/-- Witness for `withRetry_linear_backoff`: both conjuncts instantiated at
concrete oracles with `delay = 2000`. -/
theorem withRetry_linear_backoff_witness :
    withRetry
        (fun i => if i < 3 then (.error ⟨none, none, "net"⟩ : Except HttpError Nat)
                  else .ok 7) MAX_RETRIES 2000 =
      (.ok 7, [2000 * 1, 2000 * 2], 3)
    ∧ withRetry (fun _ => (.error ⟨none, none, "net"⟩ : Except HttpError Nat))
        MAX_RETRIES 2000 =
      (.error ⟨none, none, "net"⟩,
       [2000 * 1, 2000 * 2, 2000 * 3, 2000 * 4], MAX_RETRIES) :=
  ⟨withRetry_linear_backoff.1 _ 2000 ⟨none, none, "net"⟩ ⟨none, none, "net"⟩ 7
     rfl rfl rfl rfl rfl,
   withRetry_linear_backoff.2 _ 2000 (fun _ => ⟨none, none, "net"⟩)
     (fun _ _ _ => rfl) (fun _ => rfl)⟩

/-- On 6-bit indices, the source's `+`/`/` substitution turns the standard
alphabet into the base64url alphabet. -/
theorem std_repl_eq_url :
    ∀ n < 64, jsReplaceUrlChars (b64Char stdAlphabet n) = b64Char urlAlphabet n := by
  decide

/-- All 6-bit indices produced from genuine bytes are below 64. -/
theorem b64EncIndices_lt : ∀ (bs : List Nat), (∀ x ∈ bs, x < 256) →
    ∀ n ∈ b64EncIndices bs, n < 64
  | [], _, n, hn => by simp [b64EncIndices] at hn
  | [a], h, n, hn => by
    have ha := h a (by simp)
    simp [b64EncIndices] at hn
    rcases hn with rfl | rfl <;> omega
  | [a, b], h, n, hn => by
    have ha := h a (by simp)
    have hb := h b (by simp)
    simp [b64EncIndices] at hn
    rcases hn with rfl | rfl | rfl <;> omega
  | a :: b :: c :: rest, h, n, hn => by
    have ha := h a (by simp)
    have hb := h b (by simp)
    have hc := h c (by simp)
    have ih := b64EncIndices_lt rest (fun x hx =>
      h x (List.mem_cons_of_mem _ (List.mem_cons_of_mem _
        (List.mem_cons_of_mem _ hx))))
    simp only [b64EncIndices, List.mem_cons] at hn
    rcases hn with rfl | rfl | rfl | rfl | hmem
    · omega
    · omega
    · omega
    · omega
    · exact ih n hmem

/-- The base64url alphabet contains no `=` (nor does the out-of-range default). -/
theorem b64Char_url_ne_eq (n : Nat) : b64Char urlAlphabet n ≠ '=' := by
  by_cases h : n < 64
  · have hall : ∀ m < 64, b64Char urlAlphabet m ≠ '=' := by decide
    exact hall n h
  · unfold b64Char
    rw [List.getD_eq_default]
    · decide
    · have hlen : urlAlphabet.length = 64 := by decide
      omega

/-- `=` does not occur in a direct no-padding base64url encoding. -/
theorem eq_not_mem_base64UrlNoPad (bs : List Nat) : '=' ∉ base64UrlNoPad bs := by
  intro hmem
  obtain ⟨n, _, hEq⟩ := List.mem_map.mp hmem
  exact b64Char_url_ne_eq n hEq

/-- Dropping leading `=` past a replicate of `=` continues on the tail. -/
theorem dropWhile_replicate_eq (p : Nat) (l : List Char) :
    (List.replicate p '=' ++ l).dropWhile (fun c => c == '=') =
      l.dropWhile (fun c => c == '=') := by
  induction p with
  | zero => simp
  | succ n ih => simp [List.replicate_succ, ih]

/-- `dropWhile (· == '=')` is the identity on lists not containing `=`. -/
theorem dropWhile_eq_self_of_no_eq (l : List Char) (h : '=' ∉ l) :
    l.dropWhile (fun c => c == '=') = l := by
  cases l with
  | nil => rfl
  | cons a t =>
    have ha : ¬(a == '=') = true := by
      simp only [beq_iff_eq]
      intro hEq
      exact h (hEq ▸ List.mem_cons_self a t)
    simp [List.dropWhile_cons, ha]

/-- Stripping the trailing `=` run removes exactly the padding block when the
payload itself contains no `=`. -/
theorem stripTrailingEq_append_replicate (xs : List Char) (p : Nat)
    (h : '=' ∉ xs) :
    stripTrailingEq (xs ++ List.replicate p '=') = xs := by
  unfold stripTrailingEq
  rw [List.reverse_append, List.reverse_replicate, dropWhile_replicate_eq,
    dropWhile_eq_self_of_no_eq _ (by simpa using h), List.reverse_reverse]

/-- Refinement: the source's `base64URLEncode` (standard base64, character
substitution, padding strip) agrees with direct no-padding base64url encoding
on byte lists. -/
theorem base64URLEncode_eq_base64UrlNoPad (bs : List Nat)
    (h : ∀ x ∈ bs, x < 256) : base64URLEncode bs = base64UrlNoPad bs := by
  unfold base64URLEncode base64Std base64UrlNoPad
  rw [List.map_append, List.map_map, List.map_replicate]
  have hrepl : jsReplaceUrlChars '=' = '=' := rfl
  rw [hrepl]
  have hmap : (b64EncIndices bs).map (jsReplaceUrlChars ∘ b64Char stdAlphabet) =
      (b64EncIndices bs).map (b64Char urlAlphabet) := by
    apply List.map_congr_left
    intro n hn
    exact std_repl_eq_url n (b64EncIndices_lt bs h n hn)
  rw [hmap]
  exact stripTrailingEq_append_replicate _ _
    (fun hmem => (eq_not_mem_base64UrlNoPad bs) hmem)

/-- Claim C5: the code verifier is the base64url encoding, without padding, of
the 32 random bytes, and the code challenge is the base64url encoding, without
padding, of the SHA-256 digest of the verifier's textual form; neither contains
a padding character. -/
theorem pkce_base64url_no_padding :
    (∀ (randomBytes : List Nat), (∀ x ∈ randomBytes, x < 256) →
      randomBytes.length = 32 →
      generateCodeVerifier randomBytes = base64UrlNoPad randomBytes ∧
        '=' ∉ generateCodeVerifier randomBytes)
    ∧ (∀ (sha256 : String → List Nat) (verifier : String),
      (∀ x ∈ sha256 verifier, x < 256) →
      generateCodeChallenge sha256 verifier = base64UrlNoPad (sha256 verifier) ∧
        '=' ∉ generateCodeChallenge sha256 verifier) := by
  constructor
  · intro randomBytes h _
    have hEq : generateCodeVerifier randomBytes = base64UrlNoPad randomBytes :=
      base64URLEncode_eq_base64UrlNoPad randomBytes h
    exact ⟨hEq, hEq ▸ eq_not_mem_base64UrlNoPad randomBytes⟩
  · intro sha256 verifier h
    have hEq : generateCodeChallenge sha256 verifier =
        base64UrlNoPad (sha256 verifier) :=
      base64URLEncode_eq_base64UrlNoPad (sha256 verifier) h
    exact ⟨hEq, hEq ▸ eq_not_mem_base64UrlNoPad (sha256 verifier)⟩

/-- Witness for `pkce_base64url_no_padding` at concrete bytes and a concrete
digest oracle. -/
theorem pkce_base64url_no_padding_witness :
    (generateCodeVerifier (List.range 32) = base64UrlNoPad (List.range 32) ∧
      '=' ∉ generateCodeVerifier (List.range 32))
    ∧ (generateCodeChallenge (fun _ => List.replicate 32 171) "v" =
        base64UrlNoPad (List.replicate 32 171) ∧
      '=' ∉ generateCodeChallenge (fun _ => List.replicate 32 171) "v") :=
  ⟨pkce_base64url_no_padding.1 (List.range 32) (by decide) (by decide),
   pkce_base64url_no_padding.2 (fun _ => List.replicate 32 171) "v" (by decide)⟩

/-- Claim C7: for every TokenRecord, `save(record, email)` followed by `load()`
yields a TokenRecord whose `access_token`, `refresh_token`, and expiry instant
are identical to those of the saved record. -/
theorem tokenStore_round_trip (t : QwenTokenData) (email : String) (now : Nat) :
    ((loadTokenFromStorage (.valid (saveTokenToStorage t email now))).token.map
        QwenTokenData.access_token = some t.access_token)
    ∧ ((loadTokenFromStorage (.valid (saveTokenToStorage t email now))).token.map
        QwenTokenData.refresh_token = some t.refresh_token)
    ∧ ((loadTokenFromStorage (.valid (saveTokenToStorage t email now))).token.map
        QwenTokenData.expiry_date = some t.expiry_date) :=
  ⟨rfl, rfl, rfl⟩

/-- Claim C8: `load` returns absent without warning when the storage path does
not exist, returns absent with a logged warning when the content fails to
parse, and maps every error thrown inside its `try` body to that degraded
absent result instead of propagating it. -/
theorem loadTokenFromStorage_spec :
    loadTokenFromStorage .missing = ⟨none, none, false⟩
    ∧ loadTokenFromStorage .corrupt = ⟨none, none, true⟩
    ∧ (∀ (fs : FileState) (m : String),
        loadTokenFromStorageTry fs = .error m →
        loadTokenFromStorage fs = ⟨none, none, true⟩) := by
  refine ⟨rfl, rfl, ?_⟩
  intro fs m h
  unfold loadTokenFromStorage
  rw [h]

/-- Witness for `loadTokenFromStorage_spec` at the corrupt file state. -/
theorem loadTokenFromStorage_spec_witness :
    loadTokenFromStorage .missing = ⟨none, none, false⟩
    ∧ loadTokenFromStorage .corrupt = ⟨none, none, true⟩ :=
  ⟨loadTokenFromStorage_spec.1,
   loadTokenFromStorage_spec.2.2 .corrupt "JSON parse error" rfl⟩

/-- Claim C10: the stored envelope does not persist `token_type` — `save` of
two records differing only in `token_type` writes the same envelope — and
`load` returns `token_type = "Bearer"` for every envelope on disk, so
`token_type` does not round-trip through the store. -/
theorem token_type_not_round_tripped :
    (∀ env : QwenTokenStorage,
      (loadTokenFromStorage (.valid env)).token.map QwenTokenData.token_type =
        some "Bearer")
    ∧ (∀ (t : QwenTokenData) (email : String) (now : Nat),
      (loadTokenFromStorage (.valid (saveTokenToStorage t email now))).token.map
        QwenTokenData.token_type = some "Bearer")
    ∧ (∀ (t : QwenTokenData) (email : String) (now : Nat) (s : String),
      saveTokenToStorage { t with token_type := s } email now =
        saveTokenToStorage t email now) :=
  ⟨fun _ => rfl, fun _ _ _ => rfl, fun _ _ _ _ => rfl⟩

/-- One poll iteration that receives a 400 `authorization_pending` error
sleeps the current interval and loops with the interval unchanged. -/
theorem pollForToken_pending_step
    (resp : Nat → Except HttpError QwenTokenResponse) (clock : Nat → Nat)
    (email : String) (interval fuel i : Nat) (e : HttpError)
    (h : resp i = .error e) (hs : e.status = some 400)
    (hd : errField e = some "authorization_pending") :
    pollForToken resp clock email interval (fuel + 1) i =
      (pollForToken resp clock email interval fuel (i + 1)).map
        (fun q => (q.1, interval :: q.2)) := by
  have hdata : e.data ≠ none := by
    intro hn
    rw [errField, hn] at hd
    simp at hd
  simp only [pollForToken, h]
  rw [if_neg (fun hc => hdata hc.2.1), if_pos ⟨hs, hd⟩]

/-- One poll iteration that receives a success response returns the token built
from `Date.now()` of that iteration and persists it with the trimmed email. -/
theorem pollForToken_success_step
    (resp : Nat → Except HttpError QwenTokenResponse) (clock : Nat → Nat)
    (email : String) (interval fuel i : Nat) (r : QwenTokenResponse)
    (h : resp i = .ok r) :
    pollForToken resp clock email interval (fuel + 1) i =
      some (.ok (tokenDataOfResponse r (clock i),
        saveTokenToStorage (tokenDataOfResponse r (clock i)) (jsTrim email)
          (clock i)), []) := by
  simp only [pollForToken, h]

/-- Claim C4: on a 400 response whose error body is `slow_down`, the interval
is replaced by `floor(interval * 1.5)` and the next sleep uses the new
interval while the loop remains pending (the run continues at the next
iteration with the new interval, the new interval heading the sleep list). -/
theorem pollForToken_slow_down
    (resp : Nat → Except HttpError QwenTokenResponse) (clock : Nat → Nat)
    (email : String) (interval fuel i : Nat) (e : HttpError)
    (h : resp i = .error e) (hs : e.status = some 400)
    (hd : errField e = some "slow_down") :
    pollForToken resp clock email interval (fuel + 1) i =
      (pollForToken resp clock email (interval * 3 / 2) fuel (i + 1)).map
        (fun q => (q.1, interval * 3 / 2 :: q.2)) := by
  have hdata : e.data ≠ none := by
    intro hn
    rw [errField, hn] at hd
    simp at hd
  have hpend : errField e ≠ some "authorization_pending" := by
    rw [hd]
    intro hc
    exact absurd (Option.some.inj hc) (by decide)
  simp only [pollForToken, h]
  rw [if_neg (fun hc => hdata hc.2.1), if_neg (fun hc => hpend hc.2),
    if_pos ⟨hs, hd⟩]

/-- Concrete 400 `authorization_pending` error. -/
def pendingErr : HttpError := ⟨some 400, some ⟨some "authorization_pending"⟩, "400 pending"⟩

/-- Concrete 400 `slow_down` error. -/
def slowDownErr : HttpError := ⟨some 400, some ⟨some "slow_down"⟩, "400 slow"⟩

/-- Concrete success payload with `expires_in = 3600`. -/
def okResp3600 : QwenTokenResponse := ⟨"tok-A", some "rt-A", "Bearer", none, 3600⟩

/-- Constant clock oracle at instant 0. -/
def clockZero : Nat → Nat := fun _ => 0

/-- Token endpoint stub: `slow_down` once, then success. -/
def respSlowThenOk : Nat → Except HttpError QwenTokenResponse :=
  fun i => if i = 0 then .error slowDownErr else .ok okResp3600

/-- Token endpoint stub: `authorization_pending` twice, then success. -/
def respPendTwice : Nat → Except HttpError QwenTokenResponse :=
  fun i => if i < 2 then .error pendingErr else .ok okResp3600

/-- Token endpoint stub: immediate success. -/
def respOkImmediate : Nat → Except HttpError QwenTokenResponse :=
  fun _ => .ok okResp3600

/-- Witness for `pollForToken_slow_down`: with initial interval 5000 ms, the
next sleep after one `slow_down` lasts exactly 7500 ms. -/
theorem pollForToken_slow_down_witness :
    pollForToken respSlowThenOk clockZero "u" 5000 2 0 =
      (pollForToken respSlowThenOk clockZero "u" 7500 1 1).map
        (fun q => (q.1, 7500 :: q.2))
    ∧ pollSleeps (pollForToken respSlowThenOk clockZero "u" 5000 2 0) =
      some [7500] :=
  ⟨pollForToken_slow_down respSlowThenOk clockZero "u" 5000 1 0 slowDownErr
     rfl rfl rfl,
   by decide⟩

/-- Counterexample to claim C3 as stated: in the pending-twice-then-success
scenario with supplied email `"bob "`, the persisted envelope's email field is
the trimmed `"bob"`, not the value passed to poll. -/
theorem pollForToken_supplied_email_cex :
    pollSleeps (pollForToken respPendTwice clockZero "bob " 5000 3 0) =
      some [5000, 5000]
    ∧ pollEnvEmail (pollForToken respPendTwice clockZero "bob " 5000 3 0) =
      some "bob"
    ∧ ("bob" : String) ≠ "bob " := by
  refine ⟨by decide, by decide, by decide⟩

/-- Claim C3 (amended): with a stub returning `authorization_pending` twice and
then a success payload with `expires_in = 3600`, poll returns the token record
whose expiry instant is `Date.now()` of the success iteration plus 3600 s —
within 1 second of the poll start whenever at most 1 s has elapsed by then —
after exactly 2 sleeps of the initial interval, and the record is persisted
immediately via the token store with the trimmed supplied email. -/
theorem pollForToken_pending_twice_success
    (resp : Nat → Except HttpError QwenTokenResponse) (clock : Nat → Nat)
    (email : String) (interval start : Nat) (e0 e1 : HttpError)
    (r : QwenTokenResponse)
    (h0 : resp 0 = .error e0) (h0s : e0.status = some 400)
    (h0d : errField e0 = some "authorization_pending")
    (h1 : resp 1 = .error e1) (h1s : e1.status = some 400)
    (h1d : errField e1 = some "authorization_pending")
    (h2 : resp 2 = .ok r) (hexp : r.expires_in = 3600)
    (hc0 : start ≤ clock 2) (hc1 : clock 2 ≤ start + 1000) :
    pollForToken resp clock email interval 3 0 =
      some (.ok (tokenDataOfResponse r (clock 2),
        saveTokenToStorage (tokenDataOfResponse r (clock 2)) (jsTrim email)
          (clock 2)), [interval, interval])
    ∧ start + 3600 * 1000 ≤ (tokenDataOfResponse r (clock 2)).expiry_date
    ∧ (tokenDataOfResponse r (clock 2)).expiry_date ≤ start + 3600 * 1000 + 1000 := by
  refine ⟨?_, ?_, ?_⟩
  · rw [pollForToken_pending_step resp clock email interval 2 0 e0 h0 h0s h0d,
      pollForToken_pending_step resp clock email interval 1 1 e1 h1 h1s h1d,
      pollForToken_success_step resp clock email interval 0 2 r h2]
    simp [Option.map_some]
  · simp only [tokenDataOfResponse, hexp]
    omega
  · simp only [tokenDataOfResponse, hexp]
    omega

/-- Witness for `pollForToken_pending_twice_success` at a concrete stub. -/
theorem pollForToken_pending_twice_success_witness :
    pollForToken respPendTwice clockZero "bob@x" 5000 3 0 =
      some (.ok (tokenDataOfResponse okResp3600 (clockZero 2),
        saveTokenToStorage (tokenDataOfResponse okResp3600 (clockZero 2))
          (jsTrim "bob@x") (clockZero 2)), [5000, 5000])
    ∧ 0 + 3600 * 1000 ≤ (tokenDataOfResponse okResp3600 (clockZero 2)).expiry_date
    ∧ (tokenDataOfResponse okResp3600 (clockZero 2)).expiry_date ≤
        0 + 3600 * 1000 + 1000 :=
  pollForToken_pending_twice_success respPendTwice clockZero "bob@x" 5000 0
    pendingErr pendingErr okResp3600 rfl rfl rfl rfl rfl rfl rfl rfl
    (by decide) (by decide)

/-- Counterexample to claim C9 as stated: polling with email `" u "` persists
an envelope whose email field is `"u"`, not the value passed to poll. -/
theorem pollForToken_email_cex :
    pollEnvEmail (pollForToken respOkImmediate clockZero " u " 5000 1 0) =
      some "u"
    ∧ ("u" : String) ≠ " u " := by
  refine ⟨by decide, by decide⟩

/-- Claim C9 (amended): for every email string passed to poll, upon a
successful token response the persisted envelope's email field equals the
trimmed value passed to poll. -/
theorem pollForToken_persists_trimmed_email
    (resp : Nat → Except HttpError QwenTokenResponse) (clock : Nat → Nat)
    (email : String) (interval fuel i : Nat) (r : QwenTokenResponse)
    (h : resp i = .ok r) :
    pollEnvEmail (pollForToken resp clock email interval (fuel + 1) i) =
      some (jsTrim email) := by
  rw [pollForToken_success_step resp clock email interval fuel i r h]
  rfl

/-- Witness for `pollForToken_persists_trimmed_email` at a concrete stub. -/
theorem pollForToken_persists_trimmed_email_witness :
    pollEnvEmail (pollForToken respOkImmediate clockZero "  a@b.c  " 5000 1 0) =
      some (jsTrim "  a@b.c  ") :=
  pollForToken_persists_trimmed_email respOkImmediate clockZero "  a@b.c  "
    5000 0 0 okResp3600 rfl

/-- Filtering for refresh events discards any run of downstream requests. -/
theorem filter_refresh_replicate (n : Nat) (a : String) :
    (List.replicate n (ReqEvent.httpRequest a)).filter isRefreshEvent = [] := by
  induction n with
  | zero => rfl
  | succ m ih => simp [List.replicate_succ, List.filter_cons, isRefreshEvent, ih]

/-- Claim C6: when the in-memory token's expiry instant is in the past and a
non-empty refresh token is present, `sendRequest` performs exactly one refresh
call, before any downstream request, and every downstream request of the retry
loop carries the newly refreshed access token in its Authorization header (the
expiry check is not re-evaluated inside the retry loop, whatever the fetch
outcomes). -/
theorem sendRequest_refresh_once {α : Type} (st : SDKState) (storage : FileState)
    (now : Nat) (refreshResp : QwenTokenResponse)
    (fetch : Nat → Except HttpError α) (retries delay : Nat)
    (t : QwenTokenData) (rt : String)
    (hmem : st.currentToken = some t)
    (hexp : t.expiry_date ≤ now)
    (hrt : t.refresh_token = some rt) (hne : rt ≠ "") :
    (sendRequest st storage now refreshResp fetch retries delay).events =
      .refreshCall rt ::
        List.replicate (withRetry fetch retries delay).2.2
          (.httpRequest ("Bearer " ++ refreshResp.access_token))
    ∧ ((sendRequest st storage now refreshResp fetch retries delay).events.filter
        isRefreshEvent).length = 1 := by
  have hexpB : isTokenExpired t now = true := by
    simp [isTokenExpired, parseExpiry, hexp]
  have htr : jsTruthyStr (some rt) = true := by
    simp [jsTruthyStr, hne]
  have hevents : (sendRequest st storage now refreshResp fetch retries delay).events =
      .refreshCall rt ::
        List.replicate (withRetry fetch retries delay).2.2
          (.httpRequest ("Bearer " ++ refreshResp.access_token)) := by
    simp only [sendRequest, hmem, hexpB, hrt, htr, Bool.true_and, if_true,
      refreshTokenData]
  refine ⟨hevents, ?_⟩
  rw [hevents, List.filter_cons]
  simp [isRefreshEvent, filter_refresh_replicate]

/-- Concrete expired token holding refresh token `"r1"`. -/
def tokExpired : QwenTokenData := ⟨"old-acc", some "r1", "Bearer", none, 5⟩

/-- Concrete in-memory state holding `tokExpired`. -/
def stWithExpired : SDKState := ⟨some tokExpired, some "me@x"⟩

/-- Downstream fetch stub succeeding on the first attempt. -/
def fetchOk : Nat → Except HttpError Nat := fun _ => .ok 0

/-- Witness for `sendRequest_refresh_once` at a concrete expired token. -/
theorem sendRequest_refresh_once_witness :
    (sendRequest stWithExpired .missing 10 okResp3600 fetchOk 5 2000).events =
      .refreshCall "r1" ::
        List.replicate (withRetry fetchOk 5 2000).2.2
          (.httpRequest ("Bearer " ++ okResp3600.access_token))
    ∧ ((sendRequest stWithExpired .missing 10 okResp3600 fetchOk 5 2000).events.filter
        isRefreshEvent).length = 1 :=
  sendRequest_refresh_once stWithExpired .missing 10 okResp3600 fetchOk 5 2000
    tokExpired "r1" rfl (by decide) rfl (by decide)
